import Mathlib

/-!
Verification of the payment-state reconciliation and enrollment-ledger
subsystem of the school-administration back end (Express + Sequelize).

The embedding below translates, from the repository source:
  - the Enrollment and Payment Sequelize models (fields the ledger logic
    reads or writes; dates are modelled as abstract Nat ticks, monetary
    decimals as exact integers `Money := Int`);
  - the payments router: POST / (create payment, with the inline
    enrollment-recompute block), POST /stripe/webhook (signature check,
    payment_intent.succeeded lazy creation + recompute,
    payment_intent.payment_failed), POST /:id/refund;
  - ConektaController: webhook dispatch (signature-presence check),
    handleOrderPaid, handleOrderExpired, handleChargeFailed,
    refundPayment;
  - the enrollments router POST / (create enrollment) together with the
    model-level unique index on (studentId, courseId) and
    Course.isFull / getCurrentEnrollmentCount.

The persistent store is a pair of lists (enrollments, payments); the ORM
calls findByPk / findOne / update / create / sum are translated to list
operations.  `Payment.sum` over an empty result set yields SQL NULL,
which the JS subtraction coerces to 0; the embedding uses 0 directly.
Gateway and DB availability are modelled by explicit Bool parameters
where a handler branches on a thrown exception.
-/

namespace SchoolPay

/-- Monetary values: exact fixed-point decimals, embedded as integers. -/
abbrev Money := Int

/-- Enrollment.status ENUM from the Enrollment model. -/
inductive EnrollStatus
  | pending
  | active
  | completedE
  | cancelled
  | suspended
deriving DecidableEq, Repr

/-- Payment.status ENUM from the Payment model. -/
inductive PayStatus
  | pending
  | processing
  | completedP
  | failed
  | cancelled
  | refunded
deriving DecidableEq, Repr

/-- Enrollment.paymentStatus ENUM from the Enrollment model
(the source string for `partialPaid` is 'partial'). -/
inductive EPayStatus
  | pending
  | partialPaid
  | completedPS
  | overdue
deriving DecidableEq, Repr

/-- Payment.paymentMethod ENUM from the Payment model. -/
inductive PayMethod
  | cash
  | card
  | transfer
  | stripe
  | paypal
  | conekta
deriving DecidableEq, Repr

/-- User roles relevant to the enrollment-creation route. -/
inductive Role
  | admin
  | teacher
  | student
deriving DecidableEq, Repr

/-- Ledger-relevant fields of the Enrollment model. -/
structure Enrollment where
  id : Nat
  studentId : Nat
  courseId : Nat
  teacherId : Nat
  status : EnrollStatus
  totalAmount : Money
  paidAmount : Money
  discountAmount : Money
  paymentStatus : EPayStatus
  lastPaymentDate : Option Nat
  startDate : Nat
  endDate : Nat
deriving DecidableEq, Repr

/-- Ledger-relevant fields of the Payment model.  The Conekta controller
also assigns a non-model `paidDate` property; Sequelize persists only
declared attributes, so that write is dropped and is not modelled. -/
structure Payment where
  id : Nat
  enrollmentId : Nat
  amount : Money
  status : PayStatus
  paymentMethod : PayMethod
  transactionId : String
  externalPaymentId : Option String
  receiptNumber : Option String
  refundAmount : Money
  refundReason : Option String
  refundedAt : Option Nat
  paymentDate : Nat
deriving DecidableEq, Repr

/-- Fields of the Course model read by the enrollment-creation route. -/
structure Course where
  id : Nat
  isActive : Bool
  maxStudents : Nat
deriving DecidableEq, Repr

/-- Fields of the User model read by the enrollment-creation route. -/
structure User where
  id : Nat
  role : Role
deriving DecidableEq, Repr

/-- The persisted relational store (the tables the core touches). -/
structure Store where
  enrollments : List Enrollment
  payments : List Payment
  courses : List Course
  users : List User
deriving DecidableEq, Repr

/-- HTTP outcomes the embedded handlers produce. -/
inductive Resp
  | ok200
  | created201
  | badRequest400
  | notFound404
  | conflict409
  | serverError500
deriving DecidableEq, Repr

/-- Enrollment.findByPk. -/
def findEnrollment (s : Store) (eid : Nat) : Option Enrollment :=
  s.enrollments.find? (fun e => e.id == eid)

/-- Payment.findByPk. -/
def findPayment (s : Store) (pid : Nat) : Option Payment :=
  s.payments.find? (fun p => p.id == pid)

/-- Payment.findOne where externalPaymentId = x (Stripe webhook lookup). -/
def findPaymentByExternalId (s : Store) (x : String) : Option Payment :=
  s.payments.find? (fun p => p.externalPaymentId == some x)

/-- Payment.findOne where transactionId = t (Conekta webhook lookup). -/
def findPaymentByTransactionId (s : Store) (t : String) : Option Payment :=
  s.payments.find? (fun p => p.transactionId == t)

/-- Course.findByPk. -/
def findCourse (s : Store) (cid : Nat) : Option Course :=
  s.courses.find? (fun c => c.id == cid)

/-- User.findByPk. -/
def findUser (s : Store) (uid : Nat) : Option User :=
  s.users.find? (fun u => u.id == uid)

/-- Persist a mutated Enrollment row (enrollment.update / save). -/
def putEnrollment (s : Store) (e : Enrollment) : Store :=
  { s with enrollments := s.enrollments.map (fun x => if x.id == e.id then e else x) }

/-- Persist a mutated Payment row (payment.update / save). -/
def putPayment (s : Store) (p : Payment) : Store :=
  { s with payments := s.payments.map (fun x => if x.id == p.id then p else x) }

/-- Payment.sum('amount', where enrollmentId = eid and status = completed).
An empty result set is SQL NULL, coerced to 0 by the JS arithmetic. -/
def completedSum (ps : List Payment) (eid : Nat) : Money :=
  ((ps.filter (fun p => p.enrollmentId == eid && p.status == PayStatus.completedP)).map
    (fun p => p.amount)).sum

/-- The inline enrollment-recompute block that appears (verbatim, twice) in
the payments router: after POST / creates a payment and after the Stripe
webhook lazily creates a completed payment.  Note the source computes
`remainingAmount = enrollment.totalAmount - totalPaid` and does NOT
subtract `discountAmount`. -/
def recomputeEnrollment (e : Enrollment) (ps : List Payment) (now : Nat) : Enrollment :=
  let totalPaid := completedSum ps e.id
  let remainingAmount := e.totalAmount - totalPaid
  let pstatus :=
    if remainingAmount ≤ 0 then EPayStatus.completedPS
    else if totalPaid > 0 then EPayStatus.partialPaid
    else EPayStatus.pending
  { e with paidAmount := totalPaid, paymentStatus := pstatus, lastPaymentDate := some now }

/-- Modelled from the spec (for comparison only): the §4.1 paymentStatus
formula as the spec states it, with `remaining = totalAmount -
discountAmount - totalPaid`. -/
def specPaymentStatus (totalAmount discountAmount totalPaid : Money) : EPayStatus :=
  if totalAmount - discountAmount - totalPaid ≤ 0 then EPayStatus.completedPS
  else if totalPaid > 0 then EPayStatus.partialPaid
  else EPayStatus.pending

/-- Request body of POST / on the payments router.  The validation
middleware checks enrollmentId / amount / paymentMethod / paymentType but
not `status`, and the handler spreads the whole body into Payment.create,
so the body can carry any Payment status (model default: pending).
Optional descriptive fields that no ledger logic reads are omitted. -/
structure PaymentInput where
  enrollmentId : Nat
  amount : Money
  paymentMethod : PayMethod
  status : PayStatus
deriving DecidableEq, Repr

/-- POST / on the payments router (create payment, admin only).  `newId`
and `txnId` stand for the generated row id and `TXN-...` transaction id;
`now` is the request time.  After Payment.create the handler runs the
recompute block on the enrollment. -/
def createPayment (s : Store) (data : PaymentInput) (newId : Nat) (txnId rcpt : String)
    (now : Nat) : Resp × Store :=
  match findEnrollment s data.enrollmentId with
  | none => (Resp.notFound404, s)
  | some e =>
    if e.status ≠ EnrollStatus.active then (Resp.badRequest400, s)
    else
      let p : Payment :=
        { id := newId
          enrollmentId := data.enrollmentId
          amount := data.amount
          status := data.status
          paymentMethod := data.paymentMethod
          transactionId := txnId
          externalPaymentId := none
          receiptNumber := if data.paymentMethod == PayMethod.stripe then some rcpt else none
          refundAmount := 0
          refundReason := none
          refundedAt := none
          paymentDate := now }
      let s1 : Store := { s with payments := s.payments ++ [p] }
      let e2 := recomputeEnrollment e s1.payments now
      (Resp.created201, putEnrollment s1 e2)

/-- A Stripe payment_intent object as read by the webhook handler:
`amount` is in cents (the handler divides by 100) and
`metadata.enrollmentId` carries the originating enrollment. -/
structure StripeIntent where
  id : String
  amount : Money
  enrollmentId : Nat
deriving DecidableEq, Repr

/-- The Stripe webhook events the handler distinguishes. -/
inductive StripeEvent
  | succeeded (intent : StripeIntent)
  | failedIntent (intentId : String)
  | other
deriving DecidableEq, Repr

/-- Event processing of the Stripe webhook handler (the body of its
try-block).  payment_intent.succeeded: if a Payment row already exists
for the external id the whole branch is skipped; otherwise, if the
enrollment exists, a completed Payment row is lazily created and the
recompute block runs.  payment_intent.payment_failed: Payment.update sets
status failed on every row matching the external id, with no enrollment
recompute.  Unknown events are logged and ignored. -/
def stripeProcess (ev : StripeEvent) (now newId : Nat) (txnId rcpt : String)
    (s : Store) : Store :=
  match ev with
  | StripeEvent.succeeded intent =>
    match findPaymentByExternalId s intent.id with
    | some _ => s
    | none =>
      match findEnrollment s intent.enrollmentId with
      | none => s
      | some e =>
        let p : Payment :=
          { id := newId
            enrollmentId := intent.enrollmentId
            amount := intent.amount / 100
            status := PayStatus.completedP
            paymentMethod := PayMethod.stripe
            transactionId := txnId
            externalPaymentId := some intent.id
            receiptNumber := some rcpt
            refundAmount := 0
            refundReason := none
            refundedAt := none
            paymentDate := now }
        let s1 : Store := { s with payments := s.payments ++ [p] }
        let e2 := recomputeEnrollment e s1.payments now
        putEnrollment s1 e2
  | StripeEvent.failedIntent intentId =>
    { s with payments := s.payments.map (fun p =>
        if p.externalPaymentId == some intentId then { p with status := PayStatus.failed }
        else p) }
  | StripeEvent.other => s

/-- POST /stripe/webhook.  `sigOk` is the outcome of
stripe.webhooks.constructEvent against the raw payload: on failure the
handler returns 400 before touching the store.  `dbErr` models a data
layer exception inside the try-block: the catch logs and responds 500
(the store shown with the 500 is the pre-request store; no claim below
depends on the partially-written state). -/
def stripeWebhook (sigOk : Bool) (ev : StripeEvent) (dbErr : Bool) (now newId : Nat)
    (txnId rcpt : String) (s : Store) : Resp × Store :=
  if sigOk then
    if dbErr then (Resp.serverError500, s)
    else (Resp.ok200, stripeProcess ev now newId txnId rcpt s)
  else (Resp.badRequest400, s)

/-- The Conekta webhook events the controller dispatches on. -/
inductive ConektaEvent
  | orderPaid (orderId : String)
  | orderExpired (orderId : String)
  | chargeFailed (orderId : String)
  | other
deriving DecidableEq, Repr

/-- ConektaController.handleOrderPaid: look the Payment up by
transactionId and, whatever its current status, mark it completed (the
confirmation email has no ledger effect; errors are caught and logged
inside this handler).  No enrollment recompute is performed. -/
def handleOrderPaid (orderId : String) (s : Store) : Store :=
  match findPaymentByTransactionId s orderId with
  | none => s
  | some p => putPayment s { p with status := PayStatus.completedP }

/-- ConektaController.handleOrderExpired: mark the Payment failed. -/
def handleOrderExpired (orderId : String) (s : Store) : Store :=
  match findPaymentByTransactionId s orderId with
  | none => s
  | some p => putPayment s { p with status := PayStatus.failed }

/-- ConektaController.handleChargeFailed: mark the Payment failed (the
lookup key is the event's order_id, matched on transactionId). -/
def handleChargeFailed (orderId : String) (s : Store) : Store :=
  match findPaymentByTransactionId s orderId with
  | none => s
  | some p => putPayment s { p with status := PayStatus.failed }

/-- ConektaController.webhook: the signature check only tests that the
conekta-signature header is present (400 if absent, before any store
access); then the event is dispatched.  Each per-event handler swallows
its own exceptions, so the dispatch returns received: true. -/
def conektaWebhook (sigPresent : Bool) (ev : ConektaEvent) (s : Store) : Resp × Store :=
  if sigPresent then
    match ev with
    | ConektaEvent.orderPaid oid => (Resp.ok200, handleOrderPaid oid s)
    | ConektaEvent.orderExpired oid => (Resp.ok200, handleOrderExpired oid s)
    | ConektaEvent.chargeFailed oid => (Resp.ok200, handleChargeFailed oid s)
    | ConektaEvent.other => (Resp.ok200, s)
  else (Resp.badRequest400, s)

/-- POST /:id/refund on the payments router.  Rejections: missing payment
404; status not completed 400; refundAmount exceeding payment.amount 400.
For Stripe payments with an external id the processor refund runs first
(`stripeOk` models its outcome; on failure the handler returns 500 with
the row untouched).  On success the Payment row itself is marked refunded
with refundAmount/refundReason/refundedAt; the Enrollment is not
recomputed anywhere in this handler. -/
def processRefund (s : Store) (pid : Nat) (amt : Money) (reason : String)
    (stripeOk : Bool) (now : Nat) : Resp × Store :=
  match findPayment s pid with
  | none => (Resp.notFound404, s)
  | some p =>
    if p.status ≠ PayStatus.completedP then (Resp.badRequest400, s)
    else if amt > p.amount then (Resp.badRequest400, s)
    else
      let p2 : Payment :=
        { p with
          status := PayStatus.refunded
          refundAmount := amt
          refundReason := some reason
          refundedAt := some now }
      if p.paymentMethod == PayMethod.stripe && p.externalPaymentId.isSome then
        if stripeOk then (Resp.ok200, putPayment s p2)
        else (Resp.serverError500, s)
      else (Resp.ok200, putPayment s p2)

/-- ConektaController.refundPayment: always a full refund (no amount in
the request).  Missing payment 404; status not completed 400; a processor
failure is caught as 500.  On success only the Payment status flips to
refunded; the Enrollment is not recomputed. -/
def conektaRefund (s : Store) (pid : Nat) (gatewayOk : Bool) : Resp × Store :=
  match findPayment s pid with
  | none => (Resp.notFound404, s)
  | some p =>
    if p.status ≠ PayStatus.completedP then (Resp.badRequest400, s)
    else if gatewayOk then (Resp.ok200, putPayment s { p with status := PayStatus.refunded })
    else (Resp.serverError500, s)

/-- Course.getCurrentEnrollmentCount: Enrollment.count where courseId =
this.id and status = active. -/
def currentEnrollmentCount (s : Store) (cid : Nat) : Nat :=
  (s.enrollments.filter (fun e => e.courseId == cid && e.status == EnrollStatus.active)).length

/-- Course.isFull: current active-enrollment count ≥ maxStudents. -/
def courseIsFull (s : Store) (c : Course) : Bool :=
  currentEnrollmentCount s c.id ≥ c.maxStudents

/-- Request body of POST / on the enrollments router (fields the handler
and the created row use). -/
structure EnrollmentInput where
  studentId : Nat
  courseId : Nat
  teacherId : Nat
  startDate : Nat
  endDate : Nat
  totalAmount : Money
deriving DecidableEq, Repr

/-- The duplicate check of the enrollment-creation route:
Enrollment.findOne for the same (studentId, courseId) restricted to
status in [pending, active]. -/
def dupPendingActive (s : Store) (data : EnrollmentInput) : Bool :=
  s.enrollments.any (fun e =>
    e.studentId == data.studentId && e.courseId == data.courseId &&
    (e.status == EnrollStatus.pending || e.status == EnrollStatus.active))

/-- The model-level unique index on (studentId, courseId): true when any
row for the pair exists, whatever its status. -/
def dupAny (s : Store) (data : EnrollmentInput) : Bool :=
  s.enrollments.any (fun e =>
    e.studentId == data.studentId && e.courseId == data.courseId)

/-- POST / on the enrollments router (create enrollment, admin only), in
source order: student exists with role student (404), course exists
(404), teacher exists with role teacher (404), course active (400),
course not full (400), then the duplicate check — Enrollment.findOne for
the same (studentId, courseId) with status in [pending, active] gives 409
Conflict — then the date-range check (400), then Enrollment.create.  The
model carries a unique index on (studentId, courseId) with no status
filter, so create throws on ANY existing row for the pair and the catch
turns that into a 500. -/
def createEnrollment (s : Store) (data : EnrollmentInput) (newId : Nat) : Resp × Store :=
  let hasRole : Option User → Role → Bool := fun u? r =>
    match u? with
    | some u => u.role == r
    | none => false
  if ¬ hasRole (findUser s data.studentId) Role.student then (Resp.notFound404, s)
  else
    match findCourse s data.courseId with
    | none => (Resp.notFound404, s)
    | some c =>
      if ¬ hasRole (findUser s data.teacherId) Role.teacher then (Resp.notFound404, s)
      else if ¬ c.isActive then (Resp.badRequest400, s)
      else if courseIsFull s c then (Resp.badRequest400, s)
      else if dupPendingActive s data then (Resp.conflict409, s)
      else if data.startDate ≥ data.endDate then (Resp.badRequest400, s)
      else if dupAny s data then (Resp.serverError500, s)
      else
          let e : Enrollment :=
            { id := newId
              studentId := data.studentId
              courseId := data.courseId
              teacherId := data.teacherId
              status := EnrollStatus.pending
              totalAmount := data.totalAmount
              paidAmount := 0
              discountAmount := 0
              paymentStatus := EPayStatus.pending
              lastPaymentDate := none
              startDate := data.startDate
              endDate := data.endDate }
          (Resp.created201, { s with enrollments := s.enrollments ++ [e] })

/-!
Helper lemmas about the store operations.
-/

/-- Replacing, by id, every occurrence in a list and then looking the id up
finds the replacement exactly when the original lookup found something. -/
theorem find?_replace {α : Type} (idf : α → Nat) (a : α) (l : List α) (k : Nat)
    (h : idf a = k) :
    (l.map fun x => if idf x == idf a then a else x).find? (fun x => idf x == k) =
      (l.find? fun x => idf x == k).map fun _ => a := by
  induction l with
  | nil => rfl
  | cons b t ih =>
    by_cases hb : idf b = k
    · have hmap : (if idf b == idf a then a else b) = a := by simp [h, hb]
      rw [List.map_cons, hmap, List.find?_cons_of_pos _ (by simp [h]),
        List.find?_cons_of_pos _ (by simp [hb])]
      rfl
    · have hmap : (if idf b == idf a then a else b) = b := by simp [h, hb]
      rw [List.map_cons, hmap, List.find?_cons_of_neg _ (by simp [hb]),
        List.find?_cons_of_neg _ (by simp [hb])]
      exact ih

/-- Looking up an enrollment after persisting a row with the looked-up id. -/
theorem findEnrollment_put (s : Store) (e2 : Enrollment) (eid : Nat) (h : e2.id = eid) :
    findEnrollment (putEnrollment s e2) eid = (findEnrollment s eid).map fun _ => e2 :=
  find?_replace Enrollment.id e2 s.enrollments eid h

/-- Looking up a payment by row id after persisting a row with that id. -/
theorem findPayment_put (s : Store) (p2 : Payment) (pid : Nat) (h : p2.id = pid) :
    findPayment (putPayment s p2) pid = (findPayment s pid).map fun _ => p2 :=
  find?_replace Payment.id p2 s.payments pid h

/-- Predicates found by find? hold of the found element. -/
theorem found_pred {α : Type} {l : List α} {p : α → Bool} {a : α}
    (h : l.find? p = some a) : p a = true :=
  List.find?_some h

/-!
Concrete fixtures used by witnesses and counterexamples.
-/

/-- An active enrollment priced 100 with no discount and nothing paid. -/
def exEnrollActive : Enrollment :=
  { id := 1, studentId := 1, courseId := 1, teacherId := 2,
    status := EnrollStatus.active, totalAmount := 100, paidAmount := 0,
    discountAmount := 0, paymentStatus := EPayStatus.pending,
    lastPaymentDate := none, startDate := 0, endDate := 10 }

/-- A pending Stripe payment with external id piX. -/
def exPayPendingPiX : Payment :=
  { id := 1, enrollmentId := 1, amount := 50, status := PayStatus.pending,
    paymentMethod := PayMethod.stripe, transactionId := "T1",
    externalPaymentId := some "piX", receiptNumber := none, refundAmount := 0,
    refundReason := none, refundedAt := none, paymentDate := 0 }

/-- A completed cash payment with no external id. -/
def exPayCashDone : Payment :=
  { id := 2, enrollmentId := 1, amount := 70, status := PayStatus.completedP,
    paymentMethod := PayMethod.cash, transactionId := "T2",
    externalPaymentId := none, receiptNumber := none, refundAmount := 0,
    refundReason := none, refundedAt := none, paymentDate := 0 }

/-- A two-payment store over the active enrollment. -/
def exStoreTwoPays : Store :=
  { enrollments := [exEnrollActive], payments := [exPayPendingPiX, exPayCashDone],
    courses := [], users := [] }

/-!
Claim theorems.
-/

/-- The enrollment row for eid carries exactly the ledger values the two
recompute blocks persist: paidAmount equals the completed-sum over the
payment table, and paymentStatus is determined by totalAmount minus
paidAmount (the source does not subtract discountAmount). -/
def enrollmentReconciled (s : Store) (eid : Nat) : Prop :=
  ∃ e, findEnrollment s eid = some e ∧
    e.paidAmount = completedSum s.payments eid ∧
    e.paymentStatus =
      (if e.totalAmount - e.paidAmount ≤ 0 then EPayStatus.completedPS
       else if e.paidAmount > 0 then EPayStatus.partialPaid
       else EPayStatus.pending)

/-- Running the recompute block against payment table ps and persisting
the result re-establishes the reconciliation shape for that enrollment. -/
theorem enrollmentReconciled_put (s : Store) (eid : Nat) (e : Enrollment)
    (ps : List Payment) (now : Nat) (hfe : findEnrollment s eid = some e) :
    enrollmentReconciled
      (putEnrollment { s with payments := ps } (recomputeEnrollment e ps now)) eid := by
  have he : e.id = eid := by simpa using found_pred hfe
  have hid : (recomputeEnrollment e ps now).id = eid := by
    simp [recomputeEnrollment, he]
  refine ⟨recomputeEnrollment e ps now, ?_, ?_, ?_⟩
  · rw [findEnrollment_put _ _ _ hid]
    have hfe2 : findEnrollment { s with payments := ps } eid = some e := hfe
    rw [hfe2]
    rfl
  · show (recomputeEnrollment e ps now).paidAmount = completedSum ps eid
    simp [recomputeEnrollment, he]
  · simp [recomputeEnrollment]

/-- Claim C1 (corrected).  Right after either recompute site — the manual
POST / create-payment handler and the Stripe payment_intent.succeeded
lazy-creation branch — the enrollment satisfies paidAmount =
SUM(completed payments) with paymentStatus computed from totalAmount -
paidAmount (NOT totalAmount - discountAmount - paidAmount as §4.1 states:
the code never subtracts the discount).  The invariant is not maintained
at every reachable state: the refund and Conekta/failed webhook paths
change payment statuses without recomputing the enrollment. -/
theorem c1_recompute_sites :
    (∀ (s : Store) (data : PaymentInput) (newId : Nat) (txnId rcpt : String)
        (now : Nat) (s2 : Store),
      createPayment s data newId txnId rcpt now = (Resp.created201, s2) →
      enrollmentReconciled s2 data.enrollmentId) ∧
    (∀ (s : Store) (intent : StripeIntent) (now newId : Nat) (txnId rcpt : String)
        (s2 : Store) (e : Enrollment),
      findPaymentByExternalId s intent.id = none →
      findEnrollment s intent.enrollmentId = some e →
      stripeWebhook true (StripeEvent.succeeded intent) false now newId txnId rcpt s =
        (Resp.ok200, s2) →
      enrollmentReconciled s2 intent.enrollmentId) := by
  constructor
  · intro s data newId txnId rcpt now s2 h
    unfold createPayment at h
    split at h
    · simp at h
    · rename_i e hfe
      split at h
      · simp at h
      · simp only [Prod.mk.injEq] at h
        rw [← h.2]
        exact enrollmentReconciled_put s data.enrollmentId e _ now hfe
  · intro s intent now newId txnId rcpt s2 e hnone hfe h
    have h2 : stripeProcess (StripeEvent.succeeded intent) now newId txnId rcpt s = s2 := by
      simpa [stripeWebhook] using h
    simp only [stripeProcess] at h2
    split at h2
    · rename_i p hp
      rw [hnone] at hp
      exact absurd hp (by simp)
    · split at h2
      · rename_i hne
        rw [hfe] at hne
        exact absurd hne (by simp)
      · rename_i e3 hfe3
        rw [← h2]
        exact enrollmentReconciled_put s intent.enrollmentId e3 _ now hfe3

/-- The C1 counterexample enrollment: price 100 with a 50 discount. -/
def c1Enroll : Enrollment := { exEnrollActive with discountAmount := 50 }

/-- Store holding only the discounted enrollment. -/
def c1Store : Store :=
  { enrollments := [c1Enroll], payments := [], courses := [], users := [] }

/-- Request body for the C1 counterexample: a completed cash payment of
60 (the validation middleware does not constrain the status field). -/
def c1Body : PaymentInput :=
  { enrollmentId := 1, amount := 60, paymentMethod := PayMethod.cash,
    status := PayStatus.completedP }

/-- Claim C1 counterexample.  A reachable two-step trace breaks both
halves of the claim.  Step 1: creating a completed payment of 60 on the
enrollment of price 100 with discount 50 succeeds and stores
paymentStatus partial, but the §4.1 formula over totalAmount -
discountAmount - paidAmount = -10 requires completed.  Step 2: fully
refunding that payment succeeds yet leaves paidAmount at 60 while the
completed-sum is 0. -/
theorem c1_counterexample :
    (createPayment c1Store c1Body 10 "TXN1" "R1" 5).1 = Resp.created201 ∧
    (findEnrollment (createPayment c1Store c1Body 10 "TXN1" "R1" 5).2 1).map
        Enrollment.paymentStatus = some EPayStatus.partialPaid ∧
    specPaymentStatus 100 50 60 = EPayStatus.completedPS ∧
    (processRefund (createPayment c1Store c1Body 10 "TXN1" "R1" 5).2 10 60 "req" true 6).1 =
      Resp.ok200 ∧
    (findEnrollment (processRefund (createPayment c1Store c1Body 10 "TXN1" "R1" 5).2
        10 60 "req" true 6).2 1).map Enrollment.paidAmount = some 60 ∧
    completedSum (processRefund (createPayment c1Store c1Body 10 "TXN1" "R1" 5).2
        10 60 "req" true 6).2.payments 1 = 0 := by
  decide

/-- Claim C1 witness: both recompute sites applied at concrete inputs. -/
theorem c1_witness :
    enrollmentReconciled (createPayment c1Store c1Body 10 "TXN1" "R1" 5).2
      c1Body.enrollmentId ∧
    enrollmentReconciled
      (stripeWebhook true
        (StripeEvent.succeeded { id := "pi9", amount := 10000, enrollmentId := 1 }) false
        5 11 "TXN2" "R2" exStoreTwoPays).2 1 := by
  constructor
  · exact c1_recompute_sites.1 c1Store c1Body 10 "TXN1" "R1" 5
      (createPayment c1Store c1Body 10 "TXN1" "R1" 5).2 (by decide)
  · exact c1_recompute_sites.2 exStoreTwoPays
      { id := "pi9", amount := 10000, enrollmentId := 1 } 5 11 "TXN2" "R2"
      (stripeWebhook true
        (StripeEvent.succeeded { id := "pi9", amount := 10000, enrollmentId := 1 }) false
        5 11 "TXN2" "R2" exStoreTwoPays).2 exEnrollActive
      (by decide) (by decide) (by decide)

/-- Claim C5 (confirmed).  The reconciliation recompute is idempotent: with
the same payment history, re-running the recompute block leaves the
enrollment fixed (exactly, when re-run at the same instant; and in its
recomputed monetary fields paidAmount and paymentStatus, when re-run at
any later instant — the block also refreshes lastPaymentDate to the time
of the run).  It is a pure recomputation from the full payment history,
not incremental arithmetic. -/
theorem c5_recompute_idempotent (e : Enrollment) (ps : List Payment) (t1 t2 : Nat) :
    recomputeEnrollment (recomputeEnrollment e ps t1) ps t1 = recomputeEnrollment e ps t1 ∧
    (recomputeEnrollment (recomputeEnrollment e ps t1) ps t2).paidAmount =
      (recomputeEnrollment e ps t1).paidAmount ∧
    (recomputeEnrollment (recomputeEnrollment e ps t1) ps t2).paymentStatus =
      (recomputeEnrollment e ps t1).paymentStatus := by
  refine ⟨?_, ?_, ?_⟩ <;> simp [recomputeEnrollment]

/-- Claim C7 (confirmed).  A webhook request that fails the signature
check — stripe.webhooks.constructEvent for Stripe, presence of the
conekta-signature header for Conekta — is rejected with 400 and the store
(all Payment and Enrollment rows) is returned untouched. -/
theorem c7_signature_reject (ev : StripeEvent) (cev : ConektaEvent) (dbErr : Bool)
    (now newId : Nat) (txnId rcpt : String) (s : Store) :
    stripeWebhook false ev dbErr now newId txnId rcpt s = (Resp.badRequest400, s) ∧
    conektaWebhook false cev s = (Resp.badRequest400, s) := by
  exact ⟨rfl, rfl⟩

/-- Claim C8 (corrected).  Once the signature check passes, the Stripe
handler acknowledges with success only when internal processing finishes
without error; when the data layer throws inside the try-block, the catch
logs the error and responds 500 — an error response to the notifying
processor, not a success acknowledgment.  The Conekta per-event handlers
swallow their own internal errors, so the Conekta dispatch does return
received: true. -/
theorem c8_ack_behavior (ev : StripeEvent) (cev : ConektaEvent) (now newId : Nat)
    (txnId rcpt : String) (s : Store) :
    (stripeWebhook true ev true now newId txnId rcpt s).1 = Resp.serverError500 ∧
    (stripeWebhook true ev false now newId txnId rcpt s).1 = Resp.ok200 ∧
    (conektaWebhook true cev s).1 = Resp.ok200 := by
  refine ⟨rfl, rfl, ?_⟩
  cases cev <;> rfl

/-- Claim C8 counterexample.  A Stripe webhook delivery whose signature
verifies but whose internal processing hits a data-layer error is
answered with 500, not with the success acknowledgment the claim
requires. -/
theorem c8_counterexample :
    (stripeWebhook true StripeEvent.other true 0 0 "t" "r"
        { enrollments := [], payments := [], courses := [], users := [] }).1 =
      Resp.serverError500 ∧
    Resp.serverError500 ≠ Resp.ok200 := by
  exact ⟨rfl, by decide⟩

/-- Claim C10 (confirmed).  Processing payment_intent.payment_failed only
rewrites the status of the Payment rows whose externalPaymentId matches
the failed intent (to failed), keeps every other payment row identical,
and leaves the enrollments table — in particular paidAmount,
paymentStatus and lastPaymentDate of the owning Enrollment — exactly as
it was. -/
theorem c10_failed_event_frame (intentId : String) (now newId : Nat) (txnId rcpt : String)
    (s : Store) :
    ((stripeWebhook true (StripeEvent.failedIntent intentId) false now newId txnId rcpt
        s).2).enrollments = s.enrollments ∧
    (∀ i : Nat, ∀ p : Payment, s.payments[i]? = some p →
      (p.externalPaymentId = some intentId →
        ((stripeWebhook true (StripeEvent.failedIntent intentId) false now newId txnId rcpt
            s).2).payments[i]? = some { p with status := PayStatus.failed }) ∧
      (p.externalPaymentId ≠ some intentId →
        ((stripeWebhook true (StripeEvent.failedIntent intentId) false now newId txnId rcpt
            s).2).payments[i]? = some p)) := by
  constructor
  · rfl
  · intro i p hp
    constructor <;> intro hx <;>
      simp [stripeWebhook, stripeProcess, List.getElem?_map, hp, hx]

/-- Claim C10 witness: a concrete delivery of payment_intent.payment_failed
on a two-payment store, checked at the matching row. -/
theorem c10_witness :
    exStoreTwoPays.payments[0]? = some exPayPendingPiX ∧
    ((stripeWebhook true (StripeEvent.failedIntent "piX") false 9 99 "T9" "R9"
        exStoreTwoPays).2).payments[0]? =
      some { exPayPendingPiX with status := PayStatus.failed } := by
  refine ⟨by decide, ?_⟩
  exact ((c10_failed_event_frame "piX" 9 99 "T9" "R9" exStoreTwoPays).2 0
    exPayPendingPiX (by decide)).1 (by decide)

/-- Claim C2 (corrected).  The Stripe payment_intent.succeeded handler
deduplicates by mere row existence: whenever ANY Payment row exists for
the external id — in particular one in a terminal state — the delivery
changes nothing and returns success, so paidAmount is never changed a
second time.  The Conekta order.paid handler also never touches any
enrollment (so paidAmount never changes), but it does NOT honour the
terminal-state boundary: re-delivery re-marks the payment completed even
from a terminal state such as refunded. -/
theorem c2_dedup :
    (∀ (s : Store) (intent : StripeIntent) (p : Payment) (now newId : Nat)
        (txnId rcpt : String),
      findPaymentByExternalId s intent.id = some p →
      stripeWebhook true (StripeEvent.succeeded intent) false now newId txnId rcpt s =
        (Resp.ok200, s)) ∧
    (∀ (oid : String) (s : Store),
      (conektaWebhook true (ConektaEvent.orderPaid oid) s).1 = Resp.ok200 ∧
      ((conektaWebhook true (ConektaEvent.orderPaid oid) s).2).enrollments =
        s.enrollments) := by
  constructor
  · intro s intent p now newId txnId rcpt hp
    simp [stripeWebhook, stripeProcess, hp]
  · intro oid s
    refine ⟨rfl, ?_⟩
    show (handleOrderPaid oid s).enrollments = s.enrollments
    unfold handleOrderPaid
    split
    · rfl
    · rfl

/-- A refunded Conekta payment with transaction id ord1. -/
def c2PayRefunded : Payment :=
  { exPayCashDone with
    id := 3
    transactionId := "ord1"
    paymentMethod := PayMethod.conekta
    status := PayStatus.refunded }

/-- Store holding the refunded payment. -/
def c2Store : Store :=
  { enrollments := [exEnrollActive], payments := [c2PayRefunded],
    courses := [], users := [] }

/-- Claim C2 counterexample.  Delivering order.paid for a transaction
whose Payment row is already in the terminal state refunded does not
leave the row untouched: the handler flips its status back to completed
(while still answering success). -/
theorem c2_counterexample :
    findPaymentByTransactionId c2Store "ord1" = some c2PayRefunded ∧
    c2PayRefunded.status = PayStatus.refunded ∧
    (conektaWebhook true (ConektaEvent.orderPaid "ord1") c2Store).1 = Resp.ok200 ∧
    (conektaWebhook true (ConektaEvent.orderPaid "ord1") c2Store).2 ≠ c2Store ∧
    (findPaymentByTransactionId
        (conektaWebhook true (ConektaEvent.orderPaid "ord1") c2Store).2 "ord1").map
      Payment.status = some PayStatus.completedP := by
  decide

/-- Claim C2 witness: a duplicate Stripe delivery for the already-present
external id piX is a complete no-op answered with success. -/
theorem c2_witness :
    stripeWebhook true
      (StripeEvent.succeeded { id := "piX", amount := 5000, enrollmentId := 1 }) false
      7 12 "TXN3" "R3" exStoreTwoPays = (Resp.ok200, exStoreTwoPays) := by
  exact c2_dedup.1 exStoreTwoPays
    { id := "piX", amount := 5000, enrollmentId := 1 } exPayPendingPiX 7 12 "TXN3" "R3"
    (by decide)

/-- Claim C3 (corrected).  The refund route rejects refunds of
non-completed payments and refunds larger than the payment amount (400
in both cases, store untouched), and on success marks the Payment row
refunded with refundAmount/refundReason/refundedAt set; but it performs
no enrollment update at all — the enrollments table is unchanged by every
path of the handler, so paidAmount is NOT reduced by the refunded amount
(and a fortiori is never driven negative by a refund). -/
theorem c3_refund :
    (∀ (s : Store) (pid : Nat) (amt : Money) (reason : String) (ok : Bool) (now : Nat)
        (p : Payment),
      findPayment s pid = some p → p.status ≠ PayStatus.completedP →
      processRefund s pid amt reason ok now = (Resp.badRequest400, s)) ∧
    (∀ (s : Store) (pid : Nat) (amt : Money) (reason : String) (ok : Bool) (now : Nat)
        (p : Payment),
      findPayment s pid = some p → amt > p.amount →
      processRefund s pid amt reason ok now = (Resp.badRequest400, s)) ∧
    (∀ (s : Store) (pid : Nat) (amt : Money) (reason : String) (ok : Bool) (now : Nat),
      ((processRefund s pid amt reason ok now).2).enrollments = s.enrollments) ∧
    (∀ (s : Store) (pid : Nat) (amt : Money) (reason : String) (ok : Bool) (now : Nat)
        (p : Payment),
      findPayment s pid = some p → p.status = PayStatus.completedP →
      ¬ amt > p.amount →
      (p.paymentMethod == PayMethod.stripe && p.externalPaymentId.isSome) = false →
      processRefund s pid amt reason ok now =
        (Resp.ok200, putPayment s
          { p with
            status := PayStatus.refunded
            refundAmount := amt
            refundReason := some reason
            refundedAt := some now })) := by
  refine ⟨?_, ?_, ?_, ?_⟩
  · intro s pid amt reason ok now p hp hst
    simp [processRefund, hp, hst]
  · intro s pid amt reason ok now p hp hamt
    by_cases hst : p.status = PayStatus.completedP
    · simp [processRefund, hp, hst, hamt]
    · simp [processRefund, hp, hst]
  · intro s pid amt reason ok now
    unfold processRefund
    cases h : findPayment s pid with
    | none => rfl
    | some p =>
      by_cases h1 : p.status ≠ PayStatus.completedP
      · simp [h1]
      · by_cases h2 : amt > p.amount
        · simp [h1, h2]
        · cases h3 : p.paymentMethod == PayMethod.stripe && p.externalPaymentId.isSome with
          | true => cases ok <;> simp [h1, h2, h3, putPayment]
          | false => simp [h1, h2, h3, putPayment]
  · intro s pid amt reason ok now p hp hst hamt hm
    simp [processRefund, hp, hst, hamt, hm]

/-- A completed 1000 cash payment for the refund counterexample. -/
def c3Pay : Payment := { exPayCashDone with id := 4, amount := 1000 }

/-- An enrollment consistently showing the 1000 already paid. -/
def c3Enroll : Enrollment :=
  { exEnrollActive with
    totalAmount := 1500
    paidAmount := 1000
    paymentStatus := EPayStatus.partialPaid }

/-- Store pairing the enrollment with its completed payment. -/
def c3Store : Store :=
  { enrollments := [c3Enroll], payments := [c3Pay], courses := [], users := [] }

/-- Claim C3 counterexample.  Partially refunding 400 of a completed 1000
payment succeeds and marks the row refunded, yet the owning enrollment
still shows paidAmount 1000 — not reduced by the refunded amount. -/
theorem c3_counterexample :
    (processRefund c3Store 4 400 "req" true 8).1 = Resp.ok200 ∧
    (findPayment (processRefund c3Store 4 400 "req" true 8).2 4).map Payment.status =
      some PayStatus.refunded ∧
    (findEnrollment (processRefund c3Store 4 400 "req" true 8).2 1).map
      Enrollment.paidAmount = some 1000 ∧
    (1000 : Money) ≠ 1000 - 400 := by
  decide

/-- Claim C3 witness: the rejection paths and the success path of the
refund route at concrete inputs. -/
theorem c3_witness :
    processRefund exStoreTwoPays 1 10 "r" true 9 = (Resp.badRequest400, exStoreTwoPays) ∧
    processRefund c3Store 4 2000 "r" true 9 = (Resp.badRequest400, c3Store) ∧
    processRefund c3Store 4 400 "req" true 8 =
      (Resp.ok200, putPayment c3Store
        { c3Pay with
          status := PayStatus.refunded
          refundAmount := 400
          refundReason := some "req"
          refundedAt := some 8 }) := by
  refine ⟨?_, ?_, ?_⟩
  · exact c3_refund.1 exStoreTwoPays 1 10 "r" true 9 exPayPendingPiX (by decide) (by decide)
  · exact c3_refund.2.1 c3Store 4 2000 "r" true 9 c3Pay (by decide) (by decide)
  · exact c3_refund.2.2.2 c3Store 4 400 "req" true 8 c3Pay (by decide) (by decide)
      (by decide) (by decide)

/-- Claim C4 (corrected).  The webhook handlers that find an existing
local Payment row do update its status per the mapped event kind —
Conekta order.paid marks it completed, order.expired / charge.failed and
Stripe payment_intent.payment_failed mark it failed — but NONE of these
branches performs the §4.1 reconciliation: the enrollments table is left
untouched.  Moreover the Stripe payment_intent.succeeded branch with an
existing row performs no update at all (not even the status). -/
theorem c4_webhook_updates_without_reconcile :
    (∀ (oid : String) (s : Store) (p : Payment),
      findPaymentByTransactionId s oid = some p →
      handleOrderPaid oid s = putPayment s { p with status := PayStatus.completedP }) ∧
    (∀ (oid : String) (s : Store) (p : Payment),
      findPaymentByTransactionId s oid = some p →
      handleOrderExpired oid s = putPayment s { p with status := PayStatus.failed }) ∧
    (∀ (oid : String) (s : Store) (p : Payment),
      findPaymentByTransactionId s oid = some p →
      handleChargeFailed oid s = putPayment s { p with status := PayStatus.failed }) ∧
    (∀ (oid : String) (s : Store),
      (handleOrderPaid oid s).enrollments = s.enrollments ∧
      (handleOrderExpired oid s).enrollments = s.enrollments ∧
      (handleChargeFailed oid s).enrollments = s.enrollments) ∧
    (∀ (intentId : String) (now newId : Nat) (txnId rcpt : String) (s : Store),
      (stripeProcess (StripeEvent.failedIntent intentId) now newId txnId rcpt
        s).enrollments = s.enrollments) ∧
    (∀ (intent : StripeIntent) (now newId : Nat) (txnId rcpt : String) (s : Store)
        (p : Payment),
      findPaymentByExternalId s intent.id = some p →
      stripeProcess (StripeEvent.succeeded intent) now newId txnId rcpt s = s) := by
  refine ⟨?_, ?_, ?_, ?_, ?_, ?_⟩
  · intro oid s p hp; simp [handleOrderPaid, hp]
  · intro oid s p hp; simp [handleOrderExpired, hp]
  · intro oid s p hp; simp [handleChargeFailed, hp]
  · intro oid s
    refine ⟨?_, ?_, ?_⟩ <;>
      · first
        | (unfold handleOrderPaid; split; rfl; rfl)
        | (unfold handleOrderExpired; split; rfl; rfl)
        | (unfold handleChargeFailed; split; rfl; rfl)
  · intro intentId now newId txnId rcpt s; rfl
  · intro intent now newId txnId rcpt s p hp
    simp [stripeProcess, hp]

/-- A pending Conekta payment of 100 with transaction id ordA. -/
def c4Pay : Payment :=
  { exPayCashDone with
    id := 5
    transactionId := "ordA"
    status := PayStatus.pending
    paymentMethod := PayMethod.conekta
    amount := 100 }

/-- Store pairing the untouched active enrollment with that pending
payment. -/
def c4Store : Store :=
  { enrollments := [exEnrollActive], payments := [c4Pay], courses := [], users := [] }

/-- Claim C4 counterexample.  order.paid on a pending (non-terminal)
payment updates its status to completed but performs no reconciliation:
the owning enrollment keeps paidAmount 0 and lastPaymentDate none even
though the completed-sum is now 100. -/
theorem c4_counterexample :
    (conektaWebhook true (ConektaEvent.orderPaid "ordA") c4Store).1 = Resp.ok200 ∧
    (findPaymentByTransactionId
        (conektaWebhook true (ConektaEvent.orderPaid "ordA") c4Store).2 "ordA").map
      Payment.status = some PayStatus.completedP ∧
    completedSum (conektaWebhook true (ConektaEvent.orderPaid "ordA") c4Store).2.payments
      1 = 100 ∧
    (findEnrollment (conektaWebhook true (ConektaEvent.orderPaid "ordA") c4Store).2 1).map
      Enrollment.paidAmount = some 0 ∧
    (findEnrollment (conektaWebhook true (ConektaEvent.orderPaid "ordA") c4Store).2 1).map
      Enrollment.lastPaymentDate = some none := by
  decide

/-- Claim C4 witness: the status-update equations at concrete inputs. -/
theorem c4_witness :
    handleOrderPaid "ordA" c4Store =
      putPayment c4Store { c4Pay with status := PayStatus.completedP } ∧
    stripeProcess
      (StripeEvent.succeeded { id := "piX", amount := 5000, enrollmentId := 1 })
      7 12 "TXN3" "R3" exStoreTwoPays = exStoreTwoPays := by
  constructor
  · exact c4_webhook_updates_without_reconcile.1 "ordA" c4Store c4Pay (by decide)
  · exact c4_webhook_updates_without_reconcile.2.2.2.2.2
      { id := "piX", amount := 5000, enrollmentId := 1 } 7 12 "TXN3" "R3"
      exStoreTwoPays exPayPendingPiX (by decide)

/-- Replacing the enrollments table does not affect payment lookup. -/
theorem findPayment_set_enrollments (s : Store) (es : List Enrollment) (pid : Nat) :
    findPayment { s with enrollments := es } pid = findPayment s pid := rfl

/-- Claim C6 (corrected).  The manual admin create-payment route does
enforce both checks: 404 when the enrollment is missing and 400 when it
is not active, leaving the store untouched.  But the Stripe webhook
lazy-creation path creates a brand-new Payment row with NO check of the
enrollment status (any status, e.g. cancelled, is accepted), and the
refund route never consults the enrollments table, so updates on
inactive enrollments are permitted there. -/
theorem c6_enrollment_checks :
    (∀ (s : Store) (data : PaymentInput) (newId : Nat) (txnId rcpt : String) (now : Nat),
      findEnrollment s data.enrollmentId = none →
      createPayment s data newId txnId rcpt now = (Resp.notFound404, s)) ∧
    (∀ (s : Store) (data : PaymentInput) (newId : Nat) (txnId rcpt : String) (now : Nat)
        (e : Enrollment),
      findEnrollment s data.enrollmentId = some e → e.status ≠ EnrollStatus.active →
      createPayment s data newId txnId rcpt now = (Resp.badRequest400, s)) ∧
    (∀ (s : Store) (intent : StripeIntent) (now newId : Nat) (txnId rcpt : String)
        (e : Enrollment),
      findPaymentByExternalId s intent.id = none →
      findEnrollment s intent.enrollmentId = some e →
      (stripeWebhook true (StripeEvent.succeeded intent) false now newId txnId rcpt s).1 =
        Resp.ok200 ∧
      ((stripeWebhook true (StripeEvent.succeeded intent) false now newId txnId rcpt
          s).2).payments.length = s.payments.length + 1) ∧
    (∀ (es : List Enrollment) (s : Store) (pid : Nat) (amt : Money) (reason : String)
        (ok : Bool) (now : Nat),
      (processRefund { s with enrollments := es } pid amt reason ok now).1 =
        (processRefund s pid amt reason ok now).1) := by
  refine ⟨?_, ?_, ?_, ?_⟩
  · intro s data newId txnId rcpt now hfe
    simp [createPayment, hfe]
  · intro s data newId txnId rcpt now e hfe hst
    simp [createPayment, hfe, hst]
  · intro s intent now newId txnId rcpt e hnone hfe
    constructor
    · rfl
    · show (stripeProcess (StripeEvent.succeeded intent) now newId txnId rcpt
        s).payments.length = s.payments.length + 1
      simp only [stripeProcess]
      rw [hnone, hfe]
      simp [putEnrollment]
  · intro es s pid amt reason ok now
    unfold processRefund
    rw [findPayment_set_enrollments]
    cases h : findPayment s pid with
    | none => rfl
    | some p =>
      by_cases h1 : p.status ≠ PayStatus.completedP
      · simp [h1]
      · by_cases h2 : amt > p.amount
        · simp [h1, h2]
        · cases h3 : p.paymentMethod == PayMethod.stripe && p.externalPaymentId.isSome with
          | true => cases ok <;> simp [h1, h2, h3]
          | false => simp [h1, h2, h3]

/-- Store whose only enrollment is cancelled, with no payments. -/
def c6Store : Store :=
  { enrollments := [{ exEnrollActive with status := EnrollStatus.cancelled }],
    payments := [], courses := [], users := [] }

/-- Claim C6 counterexample.  A payment_intent.succeeded delivery for a
cancelled enrollment creates a brand-new completed Payment row and
returns success — the claimed InvalidState rejection for creating a new
payment on a non-active enrollment does not happen on this path. -/
theorem c6_counterexample :
    (findEnrollment c6Store 1).map Enrollment.status = some EnrollStatus.cancelled ∧
    c6Store.payments.length = 0 ∧
    (stripeWebhook true
        (StripeEvent.succeeded { id := "pi1", amount := 10000, enrollmentId := 1 }) false
        5 11 "TXN2" "R2" c6Store).1 = Resp.ok200 ∧
    ((stripeWebhook true
        (StripeEvent.succeeded { id := "pi1", amount := 10000, enrollmentId := 1 }) false
        5 11 "TXN2" "R2" c6Store).2).payments.length = 1 ∧
    (findPaymentByExternalId (stripeWebhook true
        (StripeEvent.succeeded { id := "pi1", amount := 10000, enrollmentId := 1 }) false
        5 11 "TXN2" "R2" c6Store).2 "pi1").map Payment.status =
      some PayStatus.completedP := by
  decide

/-- Claim C6 witness: the manual-route checks and the unchecked webhook
lazy creation, at concrete inputs. -/
theorem c6_witness :
    createPayment c6Store { c1Body with enrollmentId := 2 } 10 "TXN1" "R1" 5 =
      (Resp.notFound404, c6Store) ∧
    createPayment c6Store c1Body 10 "TXN1" "R1" 5 = (Resp.badRequest400, c6Store) ∧
    (stripeWebhook true
        (StripeEvent.succeeded { id := "pi1", amount := 10000, enrollmentId := 1 }) false
        5 11 "TXN2" "R2" c6Store).1 = Resp.ok200 ∧
    (processRefund { c3Store with enrollments := [] } 4 400 "req" true 8).1 =
      (processRefund c3Store 4 400 "req" true 8).1 := by
  refine ⟨?_, ?_, ?_, ?_⟩
  · exact c6_enrollment_checks.1 c6Store { c1Body with enrollmentId := 2 } 10 "TXN1" "R1" 5
      (by decide)
  · exact c6_enrollment_checks.2.1 c6Store c1Body 10 "TXN1" "R1" 5
      { exEnrollActive with status := EnrollStatus.cancelled } (by decide) (by decide)
  · exact (c6_enrollment_checks.2.2.1 c6Store
      { id := "pi1", amount := 10000, enrollmentId := 1 } 5 11 "TXN2" "R2"
      { exEnrollActive with status := EnrollStatus.cancelled } (by decide) (by decide)).1
  · exact c6_enrollment_checks.2.2.2 [] c3Store 4 400 "req" true 8

/-- Claim C9 (corrected).  With every earlier guard of the route passing,
an existing (student, course) enrollment with status pending or active
is rejected with 409 Conflict; but an existing enrollment in any OTHER
status — completed or suspended (both non-cancelled), or cancelled —
slips past the route check and instead trips the model-level unique
index inside Enrollment.create, which the catch block converts to a 500
error, not a Conflict.  Creation succeeds only when no enrollment at all
exists for the pair (which subsumes the claimed non-cancelled
condition). -/
theorem c9_duplicate_enrollment
    (s : Store) (data : EnrollmentInput) (newId : Nat) (st t : User) (c : Course)
    (hst : findUser s data.studentId = some st) (hstr : st.role = Role.student)
    (hc : findCourse s data.courseId = some c)
    (ht : findUser s data.teacherId = some t) (htr : t.role = Role.teacher)
    (hact : c.isActive = true) (hfull : courseIsFull s c = false)
    (hdate : data.startDate < data.endDate) :
    (dupPendingActive s data = true →
      createEnrollment s data newId = (Resp.conflict409, s)) ∧
    (dupPendingActive s data = false → dupAny s data = true →
      createEnrollment s data newId = (Resp.serverError500, s)) ∧
    (∀ s2, createEnrollment s data newId = (Resp.created201, s2) →
      dupAny s data = false) := by
  have hnd : ¬ data.startDate ≥ data.endDate := not_le.mpr hdate
  refine ⟨?_, ?_, ?_⟩
  · intro hdup
    simp [createEnrollment, hst, hstr, hc, ht, htr, hact, hfull, hdup]
  · intro hdup1 hdup2
    simp [createEnrollment, hst, hstr, hc, ht, htr, hact, hfull, hdup1, hdup2, hnd]
  · intro s2 h
    cases hdup2 : dupAny s data with
    | false => rfl
    | true =>
      cases hdup1 : dupPendingActive s data with
      | true =>
        simp [createEnrollment, hst, hstr, hc, ht, htr, hact, hfull, hdup1] at h
      | false =>
        simp [createEnrollment, hst, hstr, hc, ht, htr, hact, hfull, hdup1, hdup2, hnd]
          at h

/-- The student user of the C9 scenarios. -/
def c9Student : User := { id := 1, role := Role.student }

/-- The teacher user of the C9 scenarios. -/
def c9Teacher : User := { id := 2, role := Role.teacher }

/-- An active course with room for ten students. -/
def c9Course : Course := { id := 1, isActive := true, maxStudents := 10 }

/-- Store with a pending enrollment already present for (student 1,
course 1). -/
def c9StorePending : Store :=
  { enrollments := [{ exEnrollActive with status := EnrollStatus.pending }],
    payments := [], courses := [c9Course], users := [c9Student, c9Teacher] }

/-- Store with a completed (non-cancelled) enrollment already present for
the same pair. -/
def c9StoreDone : Store :=
  { enrollments := [{ exEnrollActive with status := EnrollStatus.completedE }],
    payments := [], courses := [c9Course], users := [c9Student, c9Teacher] }

/-- The request body asking to enroll student 1 in course 1 again. -/
def c9Data : EnrollmentInput :=
  { studentId := 1, courseId := 1, teacherId := 2, startDate := 0, endDate := 10,
    totalAmount := 100 }

/-- Claim C9 counterexample.  With a non-cancelled (completed) enrollment
already present for the pair, creation is rejected with 500 (the unique
index firing inside the catch-all), not with the claimed 409 Conflict. -/
theorem c9_counterexample :
    (findEnrollment c9StoreDone 1).map Enrollment.status =
      some EnrollStatus.completedE ∧
    EnrollStatus.completedE ≠ EnrollStatus.cancelled ∧
    createEnrollment c9StoreDone c9Data 3 = (Resp.serverError500, c9StoreDone) ∧
    Resp.serverError500 ≠ Resp.conflict409 := by
  decide

/-- Claim C9 witness: a pending duplicate is rejected with Conflict. -/
theorem c9_witness :
    createEnrollment c9StorePending c9Data 3 = (Resp.conflict409, c9StorePending) := by
  exact (c9_duplicate_enrollment c9StorePending c9Data 3 c9Student c9Teacher c9Course
    (by decide) (by decide) (by decide) (by decide) (by decide) (by decide) (by decide)
    (by decide)).1 (by decide)

end SchoolPay
